import Mathlib

/-!
Verification development for the gamer-sidekick repository.

The file shallowly embeds the mutation engine of `src/lib/patcher.py` and the
replacement engine of `src/lib/configurer.py` as executable Lean functions over
byte lists (`Bytes := List Nat`, each entry a byte value) and character lists,
and proves or refutes the frozen specification claims about them.
-/

/-- A file's content: a list of byte values (each `< 256` for real files). -/
abbrev Bytes := List Nat

/-! ## CRC32 (`patcher.calculate_crc32`, zlib.crc32 with `& 0xFFFFFFFF`) -/

/-- One bit step of the reflected CRC-32 (polynomial `0xEDB88320`), as computed
by `zlib.crc32`. -/
def crc32Step (c : Nat) : Nat :=
  if c % 2 = 1 then (c / 2) ^^^ 0xEDB88320 else c / 2

/-- Fold one byte into the running CRC-32 state: xor the byte into the low
eight bits, then run eight polynomial-division steps. -/
def crc32Update (c b : Nat) : Nat :=
  crc32Step^[8] (c ^^^ (b % 256))

/-- Model of `zlib.crc32(data)`: initial state `0xFFFFFFFF`, final xor `0xFFFFFFFF`. -/
def zlibCrc32 (data : Bytes) : Nat :=
  (data.foldl crc32Update 0xFFFFFFFF) ^^^ 0xFFFFFFFF

/-- Model of `patcher.calculate_crc32`: `zlib.crc32(file.read()) & 0xFFFFFFFF`. -/
def calculate_crc32 (data : Bytes) : Nat :=
  zlibCrc32 data &&& 0xFFFFFFFF

set_option maxRecDepth 100000

example : calculate_crc32 [0] = 0xD202EF8D := by decide

example :
    calculate_crc32 [0x31, 0x32, 0x33, 0x34, 0x35, 0x36, 0x37, 0x38, 0x39] =
      0xCBF43926 := by decide

/-! ## Patcher data model (`src/lib/patcher.py`)

A patch instruction's relevant fields (`patch_info` dict): its `method`
(`"replace"` or `"patch"`) and the optional `target_crc32` / `patched_crc32`
expected fingerprints. The code stores the fingerprints as 8-hex-digit strings
and compares `int(s, 16)`; the model stores the parsed numeric value, with
`Option.none` for an absent (or empty, i.e. falsy) field.

The filesystem state relevant to one instruction is the target file's bytes
and the optional sidecar backup file `<target>.backup`. Each operation also
reports the list of filesystem write operations it performed, in order, so
that write/rename atomicity claims can be stated. -/

/-- Model of `patch_info['method']`: `"replace"` or `"patch"`. -/
inductive Method where
  | replace
  | patch
deriving DecidableEq, Repr

/-- The fields of one `patch.json` entry that the mutation engine reads. -/
structure PatchInfo where
  method : Method
  target_crc32 : Option Nat
  patched_crc32 : Option Nat
deriving DecidableEq, Repr

/-- The target file's bytes and the bytes of `<target>.backup` when it exists. -/
structure FsState where
  target : Bytes
  backup : Option Bytes
deriving DecidableEq, Repr

/-- A filesystem write performed by the engine on the target or its siblings:
`backupCreate b` is `shutil.copy2(target_file, backup_file)` (copying bytes
`b`), `writeTarget b` is a direct in-place write of the target path (via
`shutil.copy2(source, target)` or `open(path, 'w'/'wb')`), `writeTemp b` is
the external tool writing `<target>.patched`, and `renameTempOverTarget` is
`os.replace(f"{target_file}.patched", target_file)`. -/
inductive FileOp where
  | backupCreate (b : Bytes)
  | writeTarget (b : Bytes)
  | writeTemp (b : Bytes)
  | renameTempOverTarget
deriving DecidableEq, Repr

/-- Per-instruction classification, as logged by the patcher: `replaced`
("replaced"), `alreadyReplaced` ("already replaced"), `patched` ("patched"),
`alreadyPatched` ("already patched"), `backupDrift` ("backup exists but target
file differ from patch"), `crcMismatch` ("CRC mismatch"), `patchToolError`
("Error patching"), and `phaseSkipped` (the whole patcher phase returned
early because `flips` is unavailable). -/
inductive Outcome where
  | replaced
  | alreadyReplaced
  | patched
  | alreadyPatched
  | backupDrift
  | crcMismatch
  | patchToolError
  | phaseSkipped
deriving DecidableEq, Repr

/-- Result of running one engine operation: the new filesystem state, the
classification, and the ordered writes performed. -/
structure StepResult where
  state : FsState
  outcome : Outcome
  events : List FileOp
deriving DecidableEq, Repr

/-! ## Patcher operations (`src/lib/patcher.py`) -/

/-- Result type of `patcher.check_file_status(file_path, target_crc32, patched_crc32)`:
returns `"already_patched"` when a declared patched CRC matches the file,
`"ready"` when `target_crc32` is absent or matches, `"mismatch"` otherwise. -/
inductive FileStatus where
  | already_patched
  | ready
  | mismatch
deriving DecidableEq, Repr

/-- Transcription of `check_file_status` (patcher.py lines 63-73) on the
target's bytes. -/
def check_file_status (file : Bytes) (target_crc32 patched_crc32 : Option Nat) :
    FileStatus :=
  let actual := calculate_crc32 file
  match patched_crc32 with
  | some pc =>
      if actual = pc then .already_patched
      else
        match target_crc32 with
        | none => .ready
        | some tc => if actual = tc then .ready else .mismatch
  | none =>
      match target_crc32 with
      | none => .ready
      | some tc => if actual = tc then .ready else .mismatch

/-- Transcription of `apply_replacement(source_file, target_file)` (patcher.py
lines 75-94): backup gating by CRC comparison, then
`shutil.copy2(source_file, target_file)` — a direct overwrite of the target
path, not a temp-file-plus-rename. -/
def apply_replacement (source : Bytes) (st : FsState) : StepResult :=
  match st.backup with
  | some b =>
      if calculate_crc32 st.target ≠ calculate_crc32 b then
        if calculate_crc32 st.target = calculate_crc32 source then
          ⟨st, .alreadyReplaced, []⟩
        else
          ⟨st, .backupDrift, []⟩
      else
        ⟨⟨source, some b⟩, .replaced, [.writeTarget source]⟩
  | none =>
      ⟨⟨source, some st.target⟩, .replaced,
        [.backupCreate st.target, .writeTarget source]⟩

/-- The `flips` invocation and its aftermath (patcher.py lines 123-129): the
external tool is modelled as `tool : Bytes → Option Bytes`, mapping the
current target bytes to the patched output bytes (`some out`, exit code 0,
followed by `os.replace` of the temp file over the target) or to `none`
(non-zero exit; the code only logs and leaves all files as they are). -/
def runFlips (tool : Bytes → Option Bytes) (st : FsState) (pre : List FileOp) :
    StepResult :=
  match tool st.target with
  | some out =>
      ⟨⟨out, st.backup⟩, .patched, pre ++ [.writeTemp out, .renameTempOverTarget]⟩
  | none => ⟨st, .patchToolError, pre⟩

/-- The backup-gating part of `patch_file_with_backup_check` (patcher.py lines
108-129), after the CRC32 pre-check: create the backup when absent, detect
drift / already-patched when present with differing CRC, and otherwise invoke
the tool. -/
def patchBackupPhase (patched_crc32 : Option Nat) (tool : Bytes → Option Bytes)
    (st : FsState) : StepResult :=
  match st.backup with
  | some b =>
      if calculate_crc32 st.target ≠ calculate_crc32 b then
        match patched_crc32 with
        | some pc =>
            if calculate_crc32 st.target = pc then ⟨st, .alreadyPatched, []⟩
            else ⟨st, .backupDrift, []⟩
        | none => ⟨st, .backupDrift, []⟩
      else runFlips tool st []
  | none =>
      runFlips tool ⟨st.target, some st.target⟩ [.backupCreate st.target]

/-- Transcription of `patch_file_with_backup_check(patch_info, source_file,
target_file, flips_cmd)` (patcher.py lines 96-129). -/
def patch_file_with_backup_check (info : PatchInfo) (tool : Bytes → Option Bytes)
    (st : FsState) : StepResult :=
  match info.target_crc32 with
  | some tc =>
      if calculate_crc32 st.target ≠ tc then ⟨st, .crcMismatch, []⟩
      else patchBackupPhase info.patched_crc32 tool st
  | none => patchBackupPhase info.patched_crc32 tool st

/-- Transcription of `apply_patch_to_file` (patcher.py lines 131-135). -/
def apply_patch_to_file (info : PatchInfo) (source : Bytes)
    (tool : Bytes → Option Bytes) (st : FsState) : StepResult :=
  match info.method with
  | .replace => apply_replacement source st
  | .patch => patch_file_with_backup_check info tool st

/-- Transcription of `process_single_patch` (patcher.py lines 138-158) for one
resolved target: run `check_file_status`, then either report
`already patched`, silently drop a CRC mismatch, or dispatch to the applier.
(Source-file existence and search-root resolution are outside this
single-target model.) -/
def process_single_patch (info : PatchInfo) (source : Bytes)
    (tool : Bytes → Option Bytes) (st : FsState) : StepResult :=
  match check_file_status st.target info.target_crc32 info.patched_crc32 with
  | .already_patched => ⟨st, .alreadyPatched, []⟩
  | .mismatch => ⟨st, .crcMismatch, []⟩
  | .ready => apply_patch_to_file info source tool st

/-- Transcription of the phase gate in `patcher.run` (patcher.py lines
160-196): when `check_flips_availability()` returns `None` the function
returns before walking any `patch.json`, so no instruction of any method is
processed; otherwise each catalog entry is processed with the probed tool.
Each catalog entry carries its own instruction, source bytes and target
state. -/
def patcher_run (flips : Option (Bytes → Option Bytes))
    (catalog : List (PatchInfo × Bytes × FsState)) : List (FsState × Outcome) :=
  match flips with
  | none => catalog.map fun e => (e.2.2, .phaseSkipped)
  | some tool =>
      catalog.map fun e =>
        let r := process_single_patch e.1 e.2.1 tool e.2.2
        (r.state, r.outcome)


/-! ## Generic sequence search/replace helpers

These model the Python sequence operations used by `configurer.py`:
`pat in content` (substring test) and `content.replace(pat, val)`
(replace every non-overlapping occurrence, left to right, with the
empty-pattern behaviour of inserting `val` around every element). -/

/-- Model of Python's sequence equality test on a leading slice:
`s[:len(pat)] == pat` expressed recursively. -/
def seqStartsWith [DecidableEq α] : List α → List α → Bool
  | [], _ => true
  | _ :: _, [] => false
  | a :: as, b :: bs => if a = b then seqStartsWith as bs else false

/-- Scan helper for `seqContains`: does `pat` occur starting at some position? -/
def seqContainsGo [DecidableEq α] (pat : List α) : List α → Bool
  | [] => false
  | c :: rest => seqStartsWith pat (c :: rest) || seqContainsGo pat rest

/-- Model of Python's `pat in l` for sequences; the empty pattern is contained
in everything. -/
def seqContains [DecidableEq α] (l pat : List α) : Bool :=
  match pat with
  | [] => true
  | _ :: _ => seqContainsGo pat l

/-- Model of Python's `l.replace(b'', val)`: `val` is inserted before every
element and after the last. -/
def interAll (val : List α) : List α → List α
  | [] => val
  | c :: rest => val ++ c :: interAll val rest

/-- Replace every non-overlapping occurrence of the non-empty pattern `pat`,
scanning left to right. Structural recursion on a fuel counter; every step
consumes at least one element, so fuel `l.length` computes the full result. -/
def replaceAllGo [DecidableEq α] (pat val : List α) : Nat → List α → List α
  | _, [] => []
  | 0, l => l
  | fuel + 1, c :: rest =>
      if seqStartsWith pat (c :: rest) then
        val ++ replaceAllGo pat val fuel (rest.drop (pat.length - 1))
      else
        c :: replaceAllGo pat val fuel rest

/-- Model of Python's `l.replace(pat, val)` on sequences. -/
def replaceAll [DecidableEq α] (l pat val : List α) : List α :=
  match pat with
  | [] => interAll val l
  | _ :: _ => replaceAllGo pat val l.length l

example : replaceAll [0x61, 0x61, 0x61] [0x61, 0x61] [0x62] = [0x62, 0x61] := by
  decide

example : replaceAll ([] : Bytes) [] [7] = [7] := by decide

/-! ## Hex string utilities (`src/lib/configurer.py`)

Python strings are modelled as `List Char`. The inputs handled by the
configurer are ASCII, for which `Char.isDigit` / `Char.isWhitespace` agree
with Python's `str.isdigit` / `str.strip`. -/

/-- Model of Python's `s.replace(' ', '')`: drop every space. -/
def removeSpaces (s : List Char) : List Char :=
  s.filter (fun c => c != ' ')

/-- Model of Python's `s.strip()`: drop whitespace from both ends. -/
def trimChars (s : List Char) : List Char :=
  ((s.dropWhile Char.isWhitespace).reverse.dropWhile Char.isWhitespace).reverse

/-- Value of one hexadecimal digit, `none` for a non-hex character. -/
def hexDigitVal (c : Char) : Option Nat :=
  if '0' ≤ c ∧ c ≤ '9' then some (c.toNat - '0'.toNat)
  else if 'a' ≤ c ∧ c ≤ 'f' then some (c.toNat - 'a'.toNat + 10)
  else if 'A' ≤ c ∧ c ≤ 'F' then some (c.toNat - 'A'.toNat + 10)
  else none

/-- Model of Python's `bytes.fromhex` on a space-free string (the configurer
always strips spaces first): consume two hex digits per byte; a dangling digit
or a non-hex character raises `ValueError`, modelled as `none`. -/
def fromhexChars : List Char → Option Bytes
  | [] => some []
  | [_] => none
  | a :: b :: rest => do
      let ha ← hexDigitVal a
      let hb ← hexDigitVal b
      let r ← fromhexChars rest
      pure ((ha * 16 + hb) :: r)

example : fromhexChars "4142".data = some [0x41, 0x42] := by decide

example : fromhexChars "41g2".data = none := by decide

/-- Model of Python's `hex_pattern.split('??')`: split on every non-overlapping
occurrence of the two-character separator `??`, left to right. -/
def splitQQ : List Char → List (List Char)
  | '?' :: '?' :: rest => [] :: splitQQ rest
  | c :: rest =>
      match splitQQ rest with
      | [] => [[c]]
      | h :: t => (c :: h) :: t
  | [] => [[]]

example : splitQQ "41 42 ?? 44".data = ["41 42 ".data, " 44".data] := by decide

example : splitQQ "41 ?? ?? 44".data = ["41 ".data, " ".data, " 44".data] := by
  decide

/-- Lowercase hexadecimal digit character for `n < 16`. -/
def hexChar (n : Nat) : Char :=
  if n < 10 then Char.ofNat ('0'.toNat + n) else Char.ofNat ('a'.toNat + n - 10)

/-- Fuel-driven digit extraction: hexadecimal digits of `n`, most significant
first, empty for `0`, complete for `n < 16 ^ fuel`. -/
def natHexAux : Nat → Nat → List Char
  | 0, _ => []
  | fuel + 1, n => if n = 0 then [] else natHexAux fuel (n / 16) ++ [hexChar (n % 16)]

/-- Hexadecimal digits of `n`, most significant first, empty for `0`. Eight
digits of fuel cover every value the configurer formats (byte values and
character codes, all below `16 ^ 8`). -/
def natHexDigits (n : Nat) : List Char :=
  natHexAux 8 n

/-- Model of Python's `f"{n:02x}"`: lowercase hex, zero-padded to width two. -/
def pyHexLower (n : Nat) : List Char :=
  match natHexDigits n with
  | [] => ['0', '0']
  | [d] => ['0', d]
  | ds => ds

example : pyHexLower 3 = "03".data := by decide

example : pyHexLower 0x4c = "4c".data := by decide

/-! ## Hex replacement engine (`configurer.apply_wildcard_replacement`,
`configurer.apply_exact_replacement`, `configurer.modify_hex_file`) -/

/-- The pattern length computed at configurer.py line 150:
`len(prefix_bytes) + 1 + len(suffix_bytes)` — one `??` group always stands for
exactly one wildcard byte. -/
def wildcardPatternLength (prefixBytes suffixBytes : Bytes) : Nat :=
  prefixBytes.length + 1 + suffixBytes.length

/-- One iteration of the scan loop (configurer.py lines 152-159): position `i`
matches when the prefix bytes align at `i` (an empty prefix always matches) and
the suffix bytes align one byte after the prefix (an empty suffix always
matches). -/
def wildcardMatchAt (content prefixBytes suffixBytes : Bytes) (i : Nat) : Bool :=
  (prefixBytes.isEmpty || decide ((content.drop i).take prefixBytes.length = prefixBytes)) &&
  (suffixBytes.isEmpty ||
    decide ((content.drop (i + prefixBytes.length + 1)).take suffixBytes.length = suffixBytes))

/-- Scan `count` candidate positions starting at `i`, returning the first
matching position. -/
def findMatchAux (content prefixBytes suffixBytes : Bytes) :
    Nat → Nat → Option Nat
  | 0, _ => none
  | count + 1, i =>
      if wildcardMatchAt content prefixBytes suffixBytes i then some i
      else findMatchAux content prefixBytes suffixBytes count (i + 1)

/-- The scan loop `for i in range(len(content) - pattern_length + 1)`
(configurer.py line 152), returning the first matching offset. Natural-number
truncated subtraction reproduces Python's empty `range` when the pattern is
longer than the buffer. -/
def findMatch (content prefixBytes suffixBytes : Bytes) : Option Nat :=
  findMatchAux content prefixBytes suffixBytes
    (content.length + 1 - wildcardPatternLength prefixBytes suffixBytes) 0

/-- The match-and-splice core of `apply_wildcard_replacement` (configurer.py
lines 152-184), after hex parsing: on the first match at `i`, the whole
matched region of `pattern_length` bytes is replaced by `value_bytes`
(`content[:i] + value_bytes + content[i + pattern_length:]`); with no match
the content is returned unchanged with the `False` flag ("pattern not
found"). -/
def wildcardCore (content prefixBytes suffixBytes valueBytes : Bytes) :
    Bytes × Bool :=
  match findMatch content prefixBytes suffixBytes with
  | some i =>
      (content.take i ++ valueBytes ++
        content.drop (i + wildcardPatternLength prefixBytes suffixBytes), true)
  | none => (content, false)

/-- Transcription of `apply_wildcard_replacement(content, hex_pattern,
hex_value, name)` (configurer.py lines 135-184). The result is `none` when
`bytes.fromhex` raises `ValueError` (propagated to the caller), and
`some (content, false)` when the pattern does not split into exactly two
parts around one `??` group ("invalid wildcard pattern"). -/
def apply_wildcard_replacement (content : Bytes) (hex_pattern hex_value : List Char) :
    Option (Bytes × Bool) :=
  match splitQQ hex_pattern with
  | [part0, part1] =>
      let prefixHex := trimChars part0
      let suffixHex := trimChars part1
      match (if prefixHex.isEmpty then some [] else fromhexChars (removeSpaces prefixHex)),
            (if suffixHex.isEmpty then some [] else fromhexChars (removeSpaces suffixHex)),
            fromhexChars (removeSpaces hex_value) with
      | some prefixBytes, some suffixBytes, some valueBytes =>
          some (wildcardCore content prefixBytes suffixBytes valueBytes)
      | _, _, _ => none
  | _ => some (content, false)

/-- Transcription of `apply_exact_replacement(content, hex_pattern, hex_value,
name)` (configurer.py lines 186-212): `content.replace(pattern_bytes,
value_bytes)` replaces every occurrence; a missing pattern is a no-op with the
`False` flag. `none` models a `ValueError` from `bytes.fromhex`. -/
def apply_exact_replacement (content : Bytes) (hex_pattern hex_value : List Char) :
    Option (Bytes × Bool) :=
  match fromhexChars (removeSpaces hex_pattern),
        fromhexChars (removeSpaces hex_value) with
  | some patternBytes, some valueBytes =>
      if seqContains content patternBytes then
        some (replaceAll content patternBytes valueBytes, true)
      else
        some (content, false)
  | _, _ => none

/-- One `hex_replacements` entry as consumed by `modify_hex_file` (the `name`
field is only used for logging). -/
structure HexRep where
  hex_pattern : List Char
  hex_value : List Char
deriving DecidableEq

/-- Dispatch of `modify_hex_file` (configurer.py lines 352-356): a pattern
containing `??` goes to the wildcard matcher, any other to the exact
replacement. -/
def applyHexRepOpt (content : Bytes) (rep : HexRep) : Option (Bytes × Bool) :=
  if seqContains rep.hex_pattern ['?', '?'] then
    apply_wildcard_replacement content rep.hex_pattern rep.hex_value
  else
    apply_exact_replacement content rep.hex_pattern rep.hex_value

/-- One loop iteration of `modify_hex_file`: on success the content and the
accumulated `modified` flag are updated (`modified = modified or changed`); a
`ValueError` (`none`) is caught and logged, leaving content and flag as they
were. -/
def hexRepStep (acc : Bytes × Bool) (rep : HexRep) : Bytes × Bool :=
  match applyHexRepOpt acc.1 rep with
  | some (c, changed) => (c, acc.2 || changed)
  | none => acc

/-- Content-level transcription of `modify_hex_file(file_path,
hex_replacements)` (configurer.py lines 329-363): the file is read once, every
instruction is applied in order to the evolving buffer, and the `modified`
flag says whether the file is rewritten at the end. -/
def modify_hex_file (content : Bytes) (reps : List HexRep) : Bytes × Bool :=
  reps.foldl hexRepStep (content, false)

/-- The write-back tail of `modify_hex_file` (configurer.py lines 361-363): if
anything changed, the new content is written directly to the target path with
`open(file_path, 'wb')` — no temporary file and no rename. -/
def modify_hex_file_writes (content : Bytes) (reps : List HexRep) :
    Bytes × List FileOp :=
  let r := modify_hex_file content reps
  (r.1, if r.2 then [FileOp.writeTarget r.1] else [])

/-! ## ASCII value encoding (`configurer.convert_decimal_to_hex_in_value`,
`configurer.ascii_to_hex_pattern`, `configurer.ascii_to_hex_value`) -/

/-- Model of Python's membership test in `'0123456789abcdefABCDEF'`
(configurer.py line 276). -/
def isPyHexDigit (c : Char) : Bool :=
  "0123456789abcdefABCDEF".data.contains c

/-- Numeric value of a run of decimal digit characters (Python's `int`). -/
def decimalVal (ds : List Char) : Nat :=
  ds.foldl (fun acc c => acc * 10 + (c.toNat - '0'.toNat)) 0

/-- Fuel-driven transcription of the scanning loop of
`convert_decimal_to_hex_in_value` (configurer.py lines 233-253): a maximal run
of decimal digits with value in `[0, 255]` becomes its two-digit lowercase hex
form; an out-of-range run is kept literally; every other character is kept.
Each step consumes at least one character, so fuel `s.length` computes the
whole scan. -/
def convertDecimalAux : Nat → List Char → List Char
  | 0, s => s
  | _, [] => []
  | fuel + 1, c :: rest =>
      if c.isDigit then
        let run := c :: rest.takeWhile Char.isDigit
        let after := rest.dropWhile Char.isDigit
        (if decimalVal run ≤ 255 then pyHexLower (decimalVal run) else run) ++
          convertDecimalAux fuel after
      else
        c :: convertDecimalAux fuel rest

/-- Transcription of `convert_decimal_to_hex_in_value(value)` (configurer.py
lines 214-255). -/
def convert_decimal_to_hex_in_value (s : List Char) : List Char :=
  convertDecimalAux s.length s

/-- Transcription of `ascii_to_hex_pattern(ascii_pattern)` (configurer.py
lines 257-265): `?` becomes the `??` wildcard group, every other character its
two-digit hex code, all joined with spaces. -/
def ascii_to_hex_pattern (s : List Char) : List Char :=
  List.intercalate [' ']
    (s.map fun c => if c = '?' then ['?', '?'] else pyHexLower c.toNat)

/-- Transcription of the pairwise re-scan loop of `ascii_to_hex_value`
(configurer.py lines 273-283): two consecutive characters that are both hex
digits are consumed as one literal hex byte token; otherwise one character is
consumed and encoded as its character code. -/
def hexPairScan : List Char → List (List Char)
  | a :: b :: rest =>
      if isPyHexDigit a && isPyHexDigit b then [a, b] :: hexPairScan rest
      else pyHexLower a.toNat :: hexPairScan (b :: rest)
  | [a] => [pyHexLower a.toNat]
  | [] => []

/-- Transcription of `ascii_to_hex_value(ascii_value)` (configurer.py lines
267-285): first rewrite decimal runs, then the pairwise hex re-scan, joined
with spaces. -/
def ascii_to_hex_value (s : List Char) : List Char :=
  List.intercalate [' '] (hexPairScan (convert_decimal_to_hex_in_value s))

/-- One loop iteration of `modify_hex_file_with_ascii` (configurer.py lines
302-323): convert the ASCII pattern and value, dispatch on `??`, catch
`ValueError`. The entries are `(pattern, value)` pairs. -/
def asciiRepStep (acc : Bytes × Bool) (rep : List Char × List Char) :
    Bytes × Bool :=
  let hexPat := ascii_to_hex_pattern rep.1
  let hexVal := ascii_to_hex_value rep.2
  match (if seqContains hexPat ['?', '?'] then
            apply_wildcard_replacement acc.1 hexPat hexVal
         else
            apply_exact_replacement acc.1 hexPat hexVal) with
  | some (c, changed) => (c, acc.2 || changed)
  | none => acc

/-- Content-level transcription of `modify_hex_file_with_ascii(file_path,
replacements)` (configurer.py lines 287-327). -/
def modify_hex_file_with_ascii (content : Bytes)
    (reps : List (List Char × List Char)) : Bytes × Bool :=
  reps.foldl asciiRepStep (content, false)

/-! ## Text replacement (`configurer.modify_file`)

The text engine runs Python `re.search` / `re.sub` over the file's content.
The regular-expression engine itself is outside the byte-level model, so
`modify_file` is parametrised by a `search` predicate and a `sub` substitution
function; for a metacharacter-free pattern Python's `re.search` is the literal
substring test and `re.sub` is literal replace-all, provided below as
`litSearch` / `litSub`. -/

/-- Content-level transcription of the loop of `modify_file(file_path,
replacements)` (configurer.py lines 379-396): for each `(pattern, value)`
pair, if `re.search` finds the pattern in the current content, the content is
rewritten with `re.sub` and the `modified` flag is set. -/
def modify_file (search : List Char → List Char → Bool)
    (sub : List Char → List Char → List Char → List Char)
    (content : List Char) (reps : List (List Char × List Char)) :
    List Char × Bool :=
  reps.foldl
    (fun acc r => if search r.1 acc.1 then (sub r.1 r.2 acc.1, true) else acc)
    (content, false)

/-- The write-back tail of `modify_file` (configurer.py lines 397-399): if any
pattern matched, the new content is written directly to the target path with
`open(file_path, 'w')` — no temporary file and no rename. Characters are
recorded as their codes. -/
def modify_file_writes (search : List Char → List Char → Bool)
    (sub : List Char → List Char → List Char → List Char)
    (content : List Char) (reps : List (List Char × List Char)) :
    List Char × List FileOp :=
  let r := modify_file search sub content reps
  (r.1, if r.2 then [FileOp.writeTarget (r.1.map Char.toNat)] else [])

/-- Python `re.search` for a literal (metacharacter-free) pattern: substring
test. -/
def litSearch (pat content : List Char) : Bool :=
  seqContains content pat

/-- Python `re.sub` for a literal (metacharacter-free) pattern and a
backreference-free value: replace every non-overlapping occurrence. -/
def litSub (pat val content : List Char) : List Char :=
  replaceAll content pat val

/-! ## Whole-run orchestration (`gamer-sidekick.main`, `patcher.run`) -/

/-- Transcription of the phase structure of `main` (gamer-sidekick.py lines
53-62) restricted to the two phases the claims mention: `patcher.run` (gated
on flips availability) followed by `configurer.run`'s hex replacements, which
do not consult the patch tool at all. -/
def main_phases (flips : Option (Bytes → Option Bytes))
    (catalog : List (PatchInfo × Bytes × FsState))
    (hexContent : Bytes) (hexReps : List HexRep) :
    List (FsState × Outcome) × (Bytes × Bool) :=
  (patcher_run flips catalog, modify_hex_file hexContent hexReps)

/-! ## Helper lemmas -/

/-- A `ready` status together with a declared `target_crc32` pins the actual
fingerprint. -/
theorem check_file_status_ready_tc {f : Bytes} {t p : Option Nat} {tc : Nat}
    (h : check_file_status f t p = .ready) (ht : t = some tc) :
    calculate_crc32 f = tc := by
  subst ht
  unfold check_file_status at h
  cases p with
  | none =>
      by_cases hc : calculate_crc32 f = tc
      · exact hc
      · simp only [hc, if_false] at h
        cases h
  | some pc =>
      by_cases hpc : calculate_crc32 f = pc
      · simp only [hpc, if_true] at h
        cases h
      · by_cases hc : calculate_crc32 f = tc
        · exact hc
        · simp only [hpc, hc, if_false] at h
          cases h

/-- A `ready` status together with a declared `patched_crc32` excludes the
already-patched fingerprint. -/
theorem check_file_status_ready_pc {f : Bytes} {t p : Option Nat} {pc : Nat}
    (h : check_file_status f t p = .ready) (hp : p = some pc) :
    calculate_crc32 f ≠ pc := by
  subst hp
  unfold check_file_status at h
  intro hc
  simp only [hc, if_true] at h
  cases h

/-- When the declared `patched_crc32` equals the file's fingerprint the status
is `already_patched`. -/
theorem check_file_status_already {f : Bytes} {t : Option Nat} :
    check_file_status f t (some (calculate_crc32 f)) = .already_patched := by
  unfold check_file_status
  simp

/-- A successful scan returns a position in the probed window that matches,
and every earlier probed position fails. -/
theorem findMatchAux_some_spec (content pb sb : Bytes) :
    ∀ (count i r : Nat), findMatchAux content pb sb count i = some r →
      i ≤ r ∧ r < i + count ∧ wildcardMatchAt content pb sb r = true ∧
        ∀ j, i ≤ j → j < r → wildcardMatchAt content pb sb j = false := by
  intro count
  induction count with
  | zero => intro i r h; simp [findMatchAux] at h
  | succ n ih =>
      intro i r h
      rw [findMatchAux] at h
      by_cases hm : wildcardMatchAt content pb sb i
      · rw [if_pos hm] at h
        cases h
        exact ⟨Nat.le_refl _, by omega, hm, fun j hj1 hj2 => by omega⟩
      · rw [if_neg hm] at h
        obtain ⟨h1, h2, h3, h4⟩ := ih (i + 1) r h
        refine ⟨by omega, by omega, h3, fun j hj1 hj2 => ?_⟩
        by_cases hji : j = i
        · subst hji
          simpa using hm
        · exact h4 j (by omega) hj2

/-- If every probed position fails, the scan returns `none`. -/
theorem findMatchAux_none_spec (content pb sb : Bytes) :
    ∀ (count i : Nat),
      (∀ j, i ≤ j → j < i + count → wildcardMatchAt content pb sb j = false) →
      findMatchAux content pb sb count i = none := by
  intro count
  induction count with
  | zero => intro i _; rfl
  | succ n ih =>
      intro i h
      rw [findMatchAux]
      rw [h i (Nat.le_refl _) (by omega)]
      exact ih (i + 1) fun j hj1 hj2 => h j (by omega) (by omega)

/-- The first match returned by `findMatch` is in bounds, matches, and is the
least matching position. -/
theorem findMatch_some_spec {content pb sb : Bytes} {i : Nat}
    (h : findMatch content pb sb = some i) :
    wildcardMatchAt content pb sb i = true ∧
      (∀ j, j < i → wildcardMatchAt content pb sb j = false) ∧
      i + wildcardPatternLength pb sb ≤ content.length := by
  obtain ⟨h1, h2, h3, h4⟩ := findMatchAux_some_spec content pb sb _ 0 i h
  exact ⟨h3, fun j hj => h4 j (Nat.zero_le _) hj, by omega⟩

/-- If no position at all matches, `findMatch` returns `none`. -/
theorem findMatch_none_of {content pb sb : Bytes}
    (h : ∀ j, wildcardMatchAt content pb sb j = false) :
    findMatch content pb sb = none :=
  findMatchAux_none_spec content pb sb _ 0 fun j _ _ => h j

/-! ## Claim C3 — CRC pre-condition gate -/

/-- C3: for every instruction declaring an expected target fingerprint, if the
actual target fingerprint matches neither it nor a declared patched
fingerprint, the instruction is aborted with the CrcMismatch classification
and the target file, the backup, and the filesystem (no write events) are
untouched. -/
theorem C3_crc_gate_no_mutation (info : PatchInfo) (source : Bytes)
    (tool : Bytes → Option Bytes) (st : FsState) (tc : Nat)
    (ht : info.target_crc32 = some tc)
    (hne : calculate_crc32 st.target ≠ tc)
    (hp : ∀ pc, info.patched_crc32 = some pc → calculate_crc32 st.target ≠ pc) :
    process_single_patch info source tool st = ⟨st, .crcMismatch, []⟩ := by
  have hc : check_file_status st.target info.target_crc32 info.patched_crc32
      = .mismatch := by
    unfold check_file_status
    cases hpp : info.patched_crc32 with
    | none => rw [ht]; simp [hne]
    | some pc => rw [ht]; simp [hne, hp pc hpp]
  unfold process_single_patch
  rw [hc]

/-- Witness for C3 at a concrete mismatching state: declared target CRC `0`
against a file whose CRC is not `0`. -/
theorem C3_crc_gate_no_mutation_witness :
    process_single_patch ⟨.patch, some 0, none⟩ [0] (fun _ => none) ⟨[0], none⟩
      = ⟨⟨[0], none⟩, .crcMismatch, []⟩ :=
  C3_crc_gate_no_mutation ⟨.patch, some 0, none⟩ [0] (fun _ => none)
    ⟨[0], none⟩ 0 rfl (by decide) (fun pc h => nomatch h)

/-! ## Claim C4 — backup gating -/

/-- Claim-side predicate: "the target fingerprint equals the declared
post-apply fingerprint"; false when nothing is declared. -/
def declaredPostApplyMatches (p : Option Nat) (fp : Nat) : Bool :=
  match p with
  | some pc => decide (fp = pc)
  | none => false

/-- Claim-side restatement of C4's backup gating for whole-file replacement,
written from the claim's four branches: no backup → copy the target verbatim
to the backup and proceed; backup present with equal fingerprints → proceed
without touching the backup; fingerprints differ but the target already has
the post-apply (source) fingerprint → succeed as a no-op; otherwise abort as
drift with no mutation. -/
def backupGateSpecReplace (source : Bytes) (st : FsState) : StepResult :=
  match st.backup with
  | none =>
      ⟨⟨source, some st.target⟩, .replaced,
        [.backupCreate st.target, .writeTarget source]⟩
  | some b =>
      if calculate_crc32 st.target = calculate_crc32 b then
        ⟨⟨source, some b⟩, .replaced, [.writeTarget source]⟩
      else if calculate_crc32 st.target = calculate_crc32 source then
        ⟨st, .alreadyReplaced, []⟩
      else
        ⟨st, .backupDrift, []⟩

/-- Claim-side restatement of C4's backup gating for the Patch method, with
the declared post-apply fingerprint `p`: same four branches, "proceed"
meaning the external tool invocation. -/
def backupGateSpecPatch (p : Option Nat) (tool : Bytes → Option Bytes)
    (st : FsState) : StepResult :=
  match st.backup with
  | none => runFlips tool ⟨st.target, some st.target⟩ [.backupCreate st.target]
  | some b =>
      if calculate_crc32 st.target = calculate_crc32 b then runFlips tool st []
      else if declaredPostApplyMatches p (calculate_crc32 st.target) then
        ⟨st, .alreadyPatched, []⟩
      else
        ⟨st, .backupDrift, []⟩

/-- C4: the backup-gating step of both appliers behaves exactly as the claim's
four branches describe (on file bytes; the verbatim backup copy is
`shutil.copy2`, which also carries timestamps and permissions). -/
theorem C4_backup_gate (source : Bytes) (p : Option Nat)
    (tool : Bytes → Option Bytes) (st : FsState) :
    apply_replacement source st = backupGateSpecReplace source st ∧
    patchBackupPhase p tool st = backupGateSpecPatch p tool st := by
  obtain ⟨tgt, bk⟩ := st
  constructor
  · unfold apply_replacement backupGateSpecReplace
    cases bk with
    | none => rfl
    | some b =>
        by_cases h : calculate_crc32 tgt = calculate_crc32 b
        · simp [h]
        · simp [h]
  · unfold patchBackupPhase backupGateSpecPatch
    cases bk with
    | none => rfl
    | some b =>
        by_cases h : calculate_crc32 tgt = calculate_crc32 b
        · simp [h]
        · cases p with
          | none => simp [h, declaredPostApplyMatches]
          | some pc =>
              by_cases h2 : calculate_crc32 tgt = pc <;>
                simp [h, h2, declaredPostApplyMatches]

/-! ## Claim C7 — hex wildcard pattern behaviour -/

/-- C7: the pattern `41 42 ?? 44` with value `41 42 99 44` applied to the
buffer `[0x41, 0x42, 0x43, 0x44]` produces `[0x41, 0x42, 0x99, 0x44]` (only
the wildcarded byte differs); the same pattern applied to any buffer with no
offset where `41 42` aligns and `44` follows one byte later leaves the buffer
unchanged and reports pattern-not-found; and a pattern with two wildcard
groups is rejected as invalid (unchanged buffer), so exactly one contiguous
wildcard run is supported. -/
theorem C7_wildcard_example :
    apply_wildcard_replacement [0x41, 0x42, 0x43, 0x44] "41 42 ?? 44".data
        "41 42 99 44".data = some ([0x41, 0x42, 0x99, 0x44], true) ∧
    (∀ content : Bytes,
      (∀ i, i + 4 ≤ content.length →
        ¬((content.drop i).take 2 = [0x41, 0x42] ∧
          (content.drop (i + 3)).take 1 = [0x44])) →
      apply_wildcard_replacement content "41 42 ?? 44".data "41 42 99 44".data
        = some (content, false)) ∧
    (∀ (content : Bytes) (v : List Char),
      apply_wildcard_replacement content "41 ?? ?? 44".data v
        = some (content, false)) := by
  refine ⟨by decide, ?_, fun content v => rfl⟩
  intro content H
  have hred : apply_wildcard_replacement content "41 42 ?? 44".data
      "41 42 99 44".data
      = some (wildcardCore content [0x41, 0x42] [0x44] [0x41, 0x42, 0x99, 0x44]) :=
    rfl
  have hAll : ∀ j, wildcardMatchAt content [0x41, 0x42] [0x44] j = false := by
    intro j
    by_cases hp : (content.drop j).take 2 = [(0x41 : Nat), 0x42]
    · by_cases hs : (content.drop (j + 3)).take 1 = [(0x44 : Nat)]
      · exfalso
        have hlen : j + 3 < content.length := by
          have hl := congrArg List.length hs
          simp [List.length_take, List.length_drop] at hl
          omega
        exact H j (by omega) ⟨hp, hs⟩
      · simp only [wildcardMatchAt]
        simp [hs, show j + 2 + 1 = j + 3 by omega]
    · simp only [wildcardMatchAt]
      simp [hp]
  rw [hred]
  have hnone : findMatch content [0x41, 0x42] [0x44] = none :=
    findMatch_none_of hAll
  simp [wildcardCore, hnone]

/-- Witness for C7's no-match clause: a one-byte buffer cannot contain the
four-byte pattern, so it is left unchanged with the not-found flag. -/
theorem C7_wildcard_example_witness :
    apply_wildcard_replacement [0x10] "41 42 ?? 44".data "41 42 99 44".data
      = some ([0x10], false) :=
  C7_wildcard_example.2.1 [0x10]
    (fun i hi => by simp only [List.length_cons, List.length_nil] at hi; omega)

/-! ## Claim C6 — first-match-only is false for exact hex patterns -/

/-- Counterexample to C6: the hex-kind instruction with pattern `41` (no
wildcard) and value `42` applied to the buffer `[0x41, 0x41]` rewrites BOTH
occurrences (Python `bytes.replace` replaces every non-overlapping match), so
the occurrence after the first is not left unchanged as the claim states. -/
theorem C6_counterexample :
    apply_exact_replacement [0x41, 0x41] "41".data "42".data
      = some ([0x42, 0x42], true) := by decide

/-- C6 (amended): a wildcard (`??`) hex instruction replaces exactly the
first match — the found offset is the least matching one and the buffer
outside the matched region is untouched — while a wildcard-free hex
instruction replaces every non-overlapping occurrence; in both paths zero
matches leave the buffer unchanged with the not-found flag, and a not-found
instruction does not affect the processing of the remaining instructions. -/
theorem C6_first_match_and_replace_all :
    (∀ (content pb sb : Bytes) (i : Nat), findMatch content pb sb = some i →
      wildcardMatchAt content pb sb i = true ∧
        ∀ j, j < i → wildcardMatchAt content pb sb j = false) ∧
    (∀ (content pb sb vb : Bytes) (i : Nat), findMatch content pb sb = some i →
      wildcardCore content pb sb vb
        = (content.take i ++ vb ++
            content.drop (i + wildcardPatternLength pb sb), true)) ∧
    (∀ content pb sb vb : Bytes, findMatch content pb sb = none →
      wildcardCore content pb sb vb = (content, false)) ∧
    (∀ (content : Bytes) (pat val : List Char) (pb vb : Bytes),
      fromhexChars (removeSpaces pat) = some pb →
      fromhexChars (removeSpaces val) = some vb →
      seqContains content pb = true →
      apply_exact_replacement content pat val
        = some (replaceAll content pb vb, true)) ∧
    (∀ (content : Bytes) (pat val : List Char) (pb vb : Bytes),
      fromhexChars (removeSpaces pat) = some pb →
      fromhexChars (removeSpaces val) = some vb →
      seqContains content pb = false →
      apply_exact_replacement content pat val = some (content, false)) ∧
    (∀ (content : Bytes) (rep : HexRep) (reps : List HexRep),
      applyHexRepOpt content rep = some (content, false) →
      modify_hex_file content (rep :: reps) = modify_hex_file content reps) := by
  refine ⟨?_, ?_, ?_, ?_, ?_, ?_⟩
  · intro content pb sb i h
    obtain ⟨h1, h2, _⟩ := findMatch_some_spec h
    exact ⟨h1, h2⟩
  · intro content pb sb vb i h
    unfold wildcardCore
    rw [h]
  · intro content pb sb vb h
    unfold wildcardCore
    rw [h]
  · intro content pat val pb vb h1 h2 h3
    unfold apply_exact_replacement
    rw [h1, h2]
    simp [h3]
  · intro content pat val pb vb h1 h2 h3
    unfold apply_exact_replacement
    rw [h1, h2]
    simp [h3]
  · intro content rep reps h
    show List.foldl hexRepStep (hexRepStep (content, false) rep) reps
      = List.foldl hexRepStep (content, false) reps
    congr 1
    unfold hexRepStep
    rw [h]
    rfl

/-- Witness for C6 (amended): a buffer without the pattern byte is unchanged
and flagged not-found by the exact path. -/
theorem C6_first_match_and_replace_all_witness :
    apply_exact_replacement [0x40] "41".data "42".data = some ([0x40], false) :=
  C6_first_match_and_replace_all.2.2.2.2.1 [0x40] "41".data "42".data
    [0x41] [0x42] (by decide) (by decide) (by decide)

/-! ## Claim C8 — value/wildcard length alignment is false -/

/-- Counterexample to C8: pattern `41 ?? 43` (wildcard run length 1) with the
one-byte value `99` on buffer `[0x41, 0x42, 0x43]` replaces the WHOLE
three-byte matched region with the value, producing `[0x99]` — the prefix
`0x41` and suffix `0x43` are not left in place and the replaced region's
length is the full pattern length, not the wildcard run length. -/
theorem C8_counterexample :
    apply_wildcard_replacement [0x41, 0x42, 0x43] "41 ?? 43".data "99".data
        = some ([0x99], true) ∧
      ([0x99] : Bytes) ≠ [0x41, 0x99, 0x43] := by decide

/-- C8 (amended): on a wildcard match at offset `i`, the engine splices the
entire encoded value over the whole matched region of `pattern_length =
|prefix| + 1 + |suffix|` bytes (`content[:i] + value + content[i +
pattern_length:]`), whatever the value's length; the buffer length changes to
`|content| + |value| - pattern_length`, and the pattern's prefix/suffix bytes
survive only if the value itself reproduces them. -/
theorem C8_wholesale_region_replacement (content pb sb vb : Bytes) (i : Nat)
    (h : findMatch content pb sb = some i) :
    i + wildcardPatternLength pb sb ≤ content.length ∧
    (wildcardCore content pb sb vb).1
      = content.take i ++ vb ++ content.drop (i + wildcardPatternLength pb sb) ∧
    (wildcardCore content pb sb vb).1.length
      = content.length + vb.length - wildcardPatternLength pb sb := by
  obtain ⟨_, _, hb⟩ := findMatch_some_spec h
  have hple : 1 ≤ wildcardPatternLength pb sb := by
    unfold wildcardPatternLength; omega
  refine ⟨hb, ?_, ?_⟩
  · unfold wildcardCore
    rw [h]
  · unfold wildcardCore
    rw [h]
    have hi : i ≤ content.length := by omega
    simp [List.length_take, List.length_drop, Nat.min_eq_left hi]
    omega

/-- Witness for C8 (amended) at the counterexample input: the match is at
offset 0, the spliced result is the bare value, and the length drops from 3
to 1. -/
theorem C8_wholesale_region_replacement_witness :
    (0 + wildcardPatternLength [0x41] [0x43] ≤ ([0x41, 0x42, 0x43] : Bytes).length) ∧
    (wildcardCore [0x41, 0x42, 0x43] [0x41] [0x43] [0x99]).1
      = ([0x41, 0x42, 0x43] : Bytes).take 0 ++ [0x99] ++
          ([0x41, 0x42, 0x43] : Bytes).drop (0 + wildcardPatternLength [0x41] [0x43]) ∧
    (wildcardCore [0x41, 0x42, 0x43] [0x41] [0x43] [0x99]).1.length
      = ([0x41, 0x42, 0x43] : Bytes).length + ([0x99] : Bytes).length
          - wildcardPatternLength [0x41] [0x43] :=
  C8_wholesale_region_replacement [0x41, 0x42, 0x43] [0x41] [0x43] [0x99] 0
    (by decide)

/-! ## Claim C10 — decimal-in-value encoding -/

/-- Counterexample to C10: the value string `a3` contains the in-range digit
run `3` and the non-digit character `a`; the claim mandates encoding
`[0x61, 0x03]` (own character code, then one byte), i.e. the hex string
`61 03`, but the encoder first rewrites `a3` to `a03` and then consumes the
hex-looking pair `a0` as a literal byte, producing `a0 33`
(bytes `[0xa0, 0x33]`). -/
theorem C10_counterexample :
    ascii_to_hex_value "a3".data = "a0 33".data ∧
      ascii_to_hex_value "a3".data ≠ "61 03".data := by decide

/-- C10 (amended): a maximal decimal digit run in `[0, 255]` is first
rewritten in place to two lowercase hex digits and an out-of-range run is kept
literally (no InvalidEncoding — e.g. `999` becomes bytes `99 39`); the result
is then re-scanned pairwise, so ANY two adjacent characters that are both hex
digits are consumed as one literal hex byte (e.g. the value `ab` encodes as
the single byte `0xab`), and only a character that does not participate in a
hex-looking pair encodes as its own character code (e.g. `LNG3` encodes as
`4c 4e 47 03`). -/
theorem C10_value_encoding :
    ascii_to_hex_value "LNG3".data = "4c 4e 47 03".data ∧
    ascii_to_hex_value "999".data = "99 39".data ∧
    (∀ c : Char, c.isDigit = false →
      ascii_to_hex_value [c] = pyHexLower c.toNat) ∧
    (∀ c d : Char, c.isDigit = false → d.isDigit = false →
      isPyHexDigit c = true → isPyHexDigit d = true →
      ascii_to_hex_value [c, d] = [c, d]) := by
  refine ⟨by decide, by decide, ?_, ?_⟩
  · intro c hc
    have h1 : convert_decimal_to_hex_in_value [c] = [c] := by
      unfold convert_decimal_to_hex_in_value
      simp [convertDecimalAux, hc]
    unfold ascii_to_hex_value
    rw [h1]
    simp [hexPairScan, List.intercalate]
  · intro c d hc hd hpc hpd
    have h1 : convert_decimal_to_hex_in_value [c, d] = [c, d] := by
      unfold convert_decimal_to_hex_in_value
      simp [convertDecimalAux, hc, hd]
    unfold ascii_to_hex_value
    rw [h1]
    simp [hexPairScan, hpc, hpd, List.intercalate]

/-- Witness for C10 (amended): the single non-hex-digit character `L` encodes
as its own character code. -/
theorem C10_value_encoding_witness :
    ascii_to_hex_value ['L'] = pyHexLower 'L'.toNat :=
  C10_value_encoding.2.2.1 'L' (by decide)

/-! ## Claim C2 — atomic temp-plus-rename is only true for the Patch path -/

/-- Counterexample to C2: a text replacement (pattern `a`, value `b`, content
`a`) mutates the target with a single direct write of the new content —
`open(file_path, 'w')` — and its write trace contains no temporary-file write
and no rename, so this mutating operation is not performed via a temporary
path plus atomic rename as the claim states. -/
theorem C2_counterexample :
    modify_file_writes litSearch litSub ['a'] [(['a'], ['b'])]
        = (['b'], [FileOp.writeTarget [98]]) ∧
      FileOp.renameTempOverTarget
        ∉ (modify_file_writes litSearch litSub ['a'] [(['a'], ['b'])]).2 ∧
      (∀ b, FileOp.writeTemp b
        ∉ (modify_file_writes litSearch litSub ['a'] [(['a'], ['b'])]).2) := by
  refine ⟨by decide, by decide, fun b => ?_⟩
  simp [modify_file_writes, modify_file, litSearch, litSub]

/-- Helper for C2: the backup phase plus tool invocation never writes the
target path directly, and a successful patch ends with the temporary write
followed by the rename that installs exactly the new target bytes. -/
theorem patchBackupPhase_write_discipline (p : Option Nat)
    (tool : Bytes → Option Bytes) (st : FsState) :
    (∀ b, FileOp.writeTarget b ∉ (patchBackupPhase p tool st).events) ∧
    ((patchBackupPhase p tool st).outcome = .patched →
      ∃ pre out,
        (patchBackupPhase p tool st).events
          = pre ++ [FileOp.writeTemp out, FileOp.renameTempOverTarget] ∧
        (patchBackupPhase p tool st).state.target = out) := by
  obtain ⟨tgt, bk⟩ := st
  cases bk with
  | none =>
      cases ht : tool tgt with
      | some out =>
          unfold patchBackupPhase runFlips
          dsimp only
          rw [ht]
          exact ⟨fun b => by simp, fun _ => ⟨[.backupCreate tgt], out, by simp, rfl⟩⟩
      | none =>
          unfold patchBackupPhase runFlips
          dsimp only
          rw [ht]
          exact ⟨fun b => by simp, fun hc => by simp at hc⟩
  | some b =>
      unfold patchBackupPhase
      dsimp only
      split_ifs with h
      · cases p with
        | some pc =>
            dsimp only
            split_ifs with h2
            · exact ⟨fun b' => by simp, fun hc => by simp at hc⟩
            · exact ⟨fun b' => by simp, fun hc => by simp at hc⟩
        | none => exact ⟨fun b' => by simp, fun hc => by simp at hc⟩
      · unfold runFlips
        dsimp only
        cases ht : tool tgt with
        | some out =>
            dsimp only
            exact ⟨fun b' => by simp, fun _ => ⟨[], out, by simp, rfl⟩⟩
        | none =>
            dsimp only
            exact ⟨fun b' => by simp, fun hc => by simp at hc⟩

/-- C2 (amended): only the binary-patch applier mutates the target through a
temporary file and an atomic rename (its trace never writes the target path
directly, and a successful patch ends with `writeTemp` then rename installing
the new bytes); whole-file replacement, text replacement and hex replacement
all mutate the target by direct writes to the target path, with no temporary
file and no rename in their traces. -/
theorem C2_write_discipline :
    (∀ (source : Bytes) (st : FsState),
      (∀ b, FileOp.writeTemp b ∉ (apply_replacement source st).events) ∧
      FileOp.renameTempOverTarget ∉ (apply_replacement source st).events ∧
      ((apply_replacement source st).outcome = .replaced →
        FileOp.writeTarget source ∈ (apply_replacement source st).events)) ∧
    (∀ (info : PatchInfo) (tool : Bytes → Option Bytes) (st : FsState),
      (∀ b, FileOp.writeTarget b ∉ (patch_file_with_backup_check info tool st).events) ∧
      ((patch_file_with_backup_check info tool st).outcome = .patched →
        ∃ pre out,
          (patch_file_with_backup_check info tool st).events
            = pre ++ [FileOp.writeTemp out, FileOp.renameTempOverTarget] ∧
          (patch_file_with_backup_check info tool st).state.target = out)) ∧
    (∀ (search : List Char → List Char → Bool)
        (sub : List Char → List Char → List Char → List Char)
        (content : List Char) (reps : List (List Char × List Char)),
      ∀ e ∈ (modify_file_writes search sub content reps).2,
        ∃ b, e = FileOp.writeTarget b) ∧
    (∀ (content : Bytes) (reps : List HexRep),
      ∀ e ∈ (modify_hex_file_writes content reps).2,
        ∃ b, e = FileOp.writeTarget b) := by
  refine ⟨?_, ?_, ?_, ?_⟩
  · intro source st
    obtain ⟨tgt, bk⟩ := st
    cases bk with
    | none => simp [apply_replacement]
    | some b =>
        unfold apply_replacement
        dsimp only
        split_ifs with h h2
        · exact ⟨fun b' => by simp, by simp, fun hc => by simp at hc⟩
        · exact ⟨fun b' => by simp, by simp, fun hc => by simp at hc⟩
        · exact ⟨fun b' => by simp, by simp, fun _ => by simp⟩
  · intro info tool st
    unfold patch_file_with_backup_check
    cases htc : info.target_crc32 with
    | some tc =>
        dsimp only
        split_ifs with hg
        · exact ⟨fun b' => by simp, fun hc => by simp at hc⟩
        · exact patchBackupPhase_write_discipline info.patched_crc32 tool st
    | none => exact patchBackupPhase_write_discipline info.patched_crc32 tool st
  · intro search sub content reps e he
    unfold modify_file_writes at he
    by_cases h : (modify_file search sub content reps).2 = true <;>
      simp [h] at he
    exact ⟨_, he⟩
  · intro content reps e he
    unfold modify_hex_file_writes at he
    by_cases h : (modify_hex_file content reps).2 = true <;> simp [h] at he
    exact ⟨_, he⟩

/-- Witness for C2 (amended): a concrete replacement writes the source bytes
directly to the target path. -/
theorem C2_write_discipline_witness :
    FileOp.writeTarget [1] ∈ (apply_replacement [1] ⟨[0], none⟩).events :=
  (C2_write_discipline.1 [1] ⟨[0], none⟩).2.2 (by decide)

/-! ## Claim C5 — tool failure aftermath -/

/-- Counterexample to C5: a Patch-method instruction on a target with no
pre-existing backup whose tool exits non-zero fails as PatchToolError with the
target bytes untouched, but the backup is NOT unchanged by the attempt — it
did not exist before the attempt and the engine created it (a pristine copy of
the target) before invoking the tool, and it persists after the failure. -/
theorem C5_counterexample :
    patch_file_with_backup_check ⟨.patch, none, none⟩ (fun _ => none) ⟨[0], none⟩
        = ⟨⟨[0], some [0]⟩, .patchToolError, [.backupCreate [0]]⟩ ∧
      (some [0] : Option Bytes) ≠ (none : Option Bytes) := by decide

/-- C5 (amended): when the crc gate passes, the backup phase does not abort,
and the external tool exits non-zero, the instruction fails as PatchToolError;
the target bytes are byte-identical to the pre-attempt state, a pre-existing
backup is untouched, but a missing backup has been created (byte-identical
pristine copy of the target) before the tool ran; the temporary output is
never renamed over the target and the engine performs no direct target
write (it also never deletes the temporary file). -/
theorem C5_tool_failure (info : PatchInfo) (tool : Bytes → Option Bytes)
    (st : FsState)
    (hgate : ∀ tc, info.target_crc32 = some tc → calculate_crc32 st.target = tc)
    (hnodrift : ∀ b, st.backup = some b →
      calculate_crc32 st.target = calculate_crc32 b)
    (hfail : tool st.target = none) :
    (patch_file_with_backup_check info tool st).outcome = .patchToolError ∧
    (patch_file_with_backup_check info tool st).state.target = st.target ∧
    (∀ b, st.backup = some b →
      (patch_file_with_backup_check info tool st).state.backup = some b) ∧
    (st.backup = none →
      (patch_file_with_backup_check info tool st).state.backup = some st.target) ∧
    FileOp.renameTempOverTarget ∉ (patch_file_with_backup_check info tool st).events ∧
    (∀ b, FileOp.writeTarget b ∉ (patch_file_with_backup_check info tool st).events) := by
  obtain ⟨tgt, bk⟩ := st
  have hf : tool tgt = none := hfail
  have hmain : patch_file_with_backup_check info tool ⟨tgt, bk⟩
      = patchBackupPhase info.patched_crc32 tool ⟨tgt, bk⟩ := by
    unfold patch_file_with_backup_check
    cases htc : info.target_crc32 with
    | some tc =>
        dsimp only
        rw [if_neg (not_not_intro (hgate tc htc))]
    | none => rfl
  cases bk with
  | none =>
      have hphase : patchBackupPhase info.patched_crc32 tool ⟨tgt, none⟩
          = ⟨⟨tgt, some tgt⟩, .patchToolError, [.backupCreate tgt]⟩ := by
        unfold patchBackupPhase runFlips
        dsimp only
        rw [hf]
      rw [hmain, hphase]
      refine ⟨rfl, rfl, ?_, ?_, ?_, ?_⟩
      · intro b hb
        exact nomatch hb
      · intro _
        rfl
      · simp
      · intro b
        simp
  | some b =>
      have hnd : calculate_crc32 tgt = calculate_crc32 b := hnodrift b rfl
      have hphase : patchBackupPhase info.patched_crc32 tool ⟨tgt, some b⟩
          = ⟨⟨tgt, some b⟩, .patchToolError, []⟩ := by
        unfold patchBackupPhase runFlips
        dsimp only
        rw [if_neg (not_not_intro hnd), hf]
      rw [hmain, hphase]
      refine ⟨rfl, rfl, ?_, ?_, ?_, ?_⟩
      · intro b' hb
        exact hb
      · intro h
        exact nomatch h
      · simp
      · intro b'
        simp

/-- Witness for C5 (amended) on a fresh one-byte target with a failing tool:
the failure is reported, the target stays, and the freshly created backup
holds the pristine bytes. -/
theorem C5_tool_failure_witness :
    (patch_file_with_backup_check ⟨.patch, none, none⟩ (fun _ => none)
        ⟨[7], none⟩).outcome = .patchToolError ∧
    (patch_file_with_backup_check ⟨.patch, none, none⟩ (fun _ => none)
        ⟨[7], none⟩).state.target = [7] ∧
    (patch_file_with_backup_check ⟨.patch, none, none⟩ (fun _ => none)
        ⟨[7], none⟩).state.backup = some [7] := by
  have h := C5_tool_failure ⟨.patch, none, none⟩ (fun _ => none) ⟨[7], none⟩
    (fun tc htc => nomatch htc) (fun b hb => nomatch hb) rfl
  exact ⟨h.1, h.2.1, h.2.2.2.1 rfl⟩

/-! ## Claim C9 — tool unavailability skips the whole patcher phase -/

/-- Counterexample to C9: with the patch tool unavailable, a Replace-method
instruction does NOT proceed — `patcher.run` returns before processing any
catalog entry, so the instruction is skipped and its target keeps its original
bytes, whereas with the tool present the very same instruction would be
applied (target rewritten to the source bytes). -/
theorem C9_counterexample :
    patcher_run none [(⟨.replace, none, none⟩, [1], ⟨[0], none⟩)]
        = [(⟨[0], none⟩, .phaseSkipped)] ∧
      patcher_run (some (fun _ => none)) [(⟨.replace, none, none⟩, [1], ⟨[0], none⟩)]
        = [(⟨[1], some [0]⟩, .replaced)] := by decide

/-- C9 (amended): when the external patch tool is unavailable the entire
patcher phase is skipped — every catalog instruction, Patch-method and
Replace-method alike, is left unprocessed with zero filesystem touches —
while the configurer's replacement phase runs independently of the tool and
produces exactly the same result as with the tool present. -/
theorem C9_phase_skip (catalog : List (PatchInfo × Bytes × FsState))
    (hexContent : Bytes) (hexReps : List HexRep)
    (tool : Bytes → Option Bytes) :
    (main_phases none catalog hexContent hexReps).1
        = catalog.map (fun e => (e.2.2, .phaseSkipped)) ∧
    (∀ r ∈ (main_phases none catalog hexContent hexReps).1,
      r.2 = Outcome.phaseSkipped) ∧
    (main_phases none catalog hexContent hexReps).2
        = (main_phases (some tool) catalog hexContent hexReps).2 := by
  refine ⟨rfl, ?_, rfl⟩
  intro r hr
  simp only [main_phases, patcher_run, List.mem_map] at hr
  obtain ⟨e, _, he⟩ := hr
  rw [← he]

/-! ## Claim C1 — idempotence of a second run -/

/-- Counterexample to C1: a Replace instruction that declares `targetCrc32`
(matching the fresh target) but no `patchedCrc32` applies normally on the
first run, but the second run classifies it as CrcMismatch — an abort/error
classification, not AlreadyApplied or a no-op report — because the mutated
target no longer carries the declared pre-patch fingerprint. -/
theorem C1_counterexample :
    (process_single_patch ⟨.replace, some (calculate_crc32 [0]), none⟩ [1]
        (fun _ => none) ⟨[0], none⟩).outcome = .replaced ∧
    (process_single_patch ⟨.replace, some (calculate_crc32 [0]), none⟩ [1]
        (fun _ => none)
        ((process_single_patch ⟨.replace, some (calculate_crc32 [0]), none⟩ [1]
            (fun _ => none) ⟨[0], none⟩).state)).outcome
      = .crcMismatch := by decide

/-- C1 (amended): for every instruction run twice against a fresh target, (a)
if the instruction declares a `patchedCrc32` equal to the fingerprint of the
target left by the first run, the second run is a pure AlreadyApplied no-op
(identical state, no writes); and (b) whenever the external tool's output
never collides with its input's fingerprint, the second run leaves the target
bytes identical to the first run's result — so the final bytes after each of
the two runs agree — even though its classification may be CrcMismatch or
BackupDrift when the declared fingerprints do not describe the post-apply
state. -/
theorem C1_idempotence (info : PatchInfo) (source : Bytes)
    (tool : Bytes → Option Bytes) (orig : Bytes) :
    (info.patched_crc32 =
        some (calculate_crc32
          (process_single_patch info source tool ⟨orig, none⟩).state.target) →
      process_single_patch info source tool
          (process_single_patch info source tool ⟨orig, none⟩).state
        = ⟨(process_single_patch info source tool ⟨orig, none⟩).state,
            .alreadyPatched, []⟩) ∧
    ((∀ b out, tool b = some out → calculate_crc32 out ≠ calculate_crc32 b) →
      (process_single_patch info source tool
          (process_single_patch info source tool ⟨orig, none⟩).state).state.target
        = (process_single_patch info source tool ⟨orig, none⟩).state.target) := by
  have hr1 : process_single_patch info source tool ⟨orig, none⟩
      = match check_file_status orig info.target_crc32 info.patched_crc32 with
        | .already_patched => ⟨⟨orig, none⟩, .alreadyPatched, []⟩
        | .mismatch => ⟨⟨orig, none⟩, .crcMismatch, []⟩
        | .ready => apply_patch_to_file info source tool ⟨orig, none⟩ := rfl
  constructor
  · intro hp
    set st1 := (process_single_patch info source tool ⟨orig, none⟩).state with hst1
    have hc : check_file_status st1.target info.target_crc32 info.patched_crc32
        = .already_patched := by
      rw [hp]
      exact check_file_status_already
    show process_single_patch info source tool st1 = ⟨st1, .alreadyPatched, []⟩
    unfold process_single_patch
    rw [hc]
  · intro htool
    cases hs : check_file_status orig info.target_crc32 info.patched_crc32 with
    | already_patched => simp [hr1, hs]
    | mismatch => simp [hr1, hs]
    | ready =>
        cases hm : info.method with
        | replace =>
            have hap : apply_patch_to_file info source tool ⟨orig, none⟩
                = apply_replacement source ⟨orig, none⟩ := by
              unfold apply_patch_to_file
              rw [hm]
            have hrep : apply_replacement source ⟨orig, none⟩
                = ⟨⟨source, some orig⟩, .replaced,
                    [.backupCreate orig, .writeTarget source]⟩ := rfl
            simp only [hr1, hs, hap, hrep]
            cases hs2 : check_file_status source info.target_crc32 info.patched_crc32 with
            | already_patched =>
                have h2 : process_single_patch info source tool ⟨source, some orig⟩
                    = ⟨⟨source, some orig⟩, .alreadyPatched, []⟩ := by
                  unfold process_single_patch
                  dsimp only
                  rw [hs2]
                rw [h2]
            | mismatch =>
                have h2 : process_single_patch info source tool ⟨source, some orig⟩
                    = ⟨⟨source, some orig⟩, .crcMismatch, []⟩ := by
                  unfold process_single_patch
                  dsimp only
                  rw [hs2]
                rw [h2]
            | ready =>
                have h2 : process_single_patch info source tool ⟨source, some orig⟩
                    = apply_patch_to_file info source tool ⟨source, some orig⟩ := by
                  unfold process_single_patch
                  dsimp only
                  rw [hs2]
                have hap2 : apply_patch_to_file info source tool ⟨source, some orig⟩
                    = apply_replacement source ⟨source, some orig⟩ := by
                  unfold apply_patch_to_file
                  rw [hm]
                rw [h2, hap2]
                unfold apply_replacement
                dsimp only
                split_ifs with h1 h2 <;> rfl
        | patch =>
            have hap : apply_patch_to_file info source tool ⟨orig, none⟩
                = patch_file_with_backup_check info tool ⟨orig, none⟩ := by
              unfold apply_patch_to_file
              rw [hm]
            have hgate : patch_file_with_backup_check info tool ⟨orig, none⟩
                = patchBackupPhase info.patched_crc32 tool ⟨orig, none⟩ := by
              unfold patch_file_with_backup_check
              cases htc : info.target_crc32 with
              | some tc =>
                  dsimp only
                  rw [if_neg (not_not_intro (check_file_status_ready_tc hs htc))]
              | none => rfl
            have hbp : patchBackupPhase info.patched_crc32 tool ⟨orig, none⟩
                = runFlips tool ⟨orig, some orig⟩ [.backupCreate orig] := rfl
            simp only [hr1, hs, hap, hgate, hbp]
            cases ht : tool orig with
            | none =>
                have hrf : runFlips tool ⟨orig, some orig⟩ [.backupCreate orig]
                    = ⟨⟨orig, some orig⟩, .patchToolError, [.backupCreate orig]⟩ := by
                  unfold runFlips
                  dsimp only
                  rw [ht]
                simp only [hrf]
                have h2 : process_single_patch info source tool ⟨orig, some orig⟩
                    = apply_patch_to_file info source tool ⟨orig, some orig⟩ := by
                  unfold process_single_patch
                  dsimp only
                  rw [hs]
                have hap2 : apply_patch_to_file info source tool ⟨orig, some orig⟩
                    = patch_file_with_backup_check info tool ⟨orig, some orig⟩ := by
                  unfold apply_patch_to_file
                  rw [hm]
                have hgate2 : patch_file_with_backup_check info tool ⟨orig, some orig⟩
                    = patchBackupPhase info.patched_crc32 tool ⟨orig, some orig⟩ := by
                  unfold patch_file_with_backup_check
                  cases htc : info.target_crc32 with
                  | some tc =>
                      dsimp only
                      rw [if_neg (not_not_intro (check_file_status_ready_tc hs htc))]
                  | none => rfl
                have hbp2 : patchBackupPhase info.patched_crc32 tool ⟨orig, some orig⟩
                    = runFlips tool ⟨orig, some orig⟩ [] := by
                  unfold patchBackupPhase
                  dsimp only
                  rw [if_neg (not_not_intro rfl)]
                have hrf2 : runFlips tool ⟨orig, some orig⟩ []
                    = ⟨⟨orig, some orig⟩, .patchToolError, []⟩ := by
                  unfold runFlips
                  dsimp only
                  rw [ht]
                rw [h2, hap2, hgate2, hbp2, hrf2]
            | some out =>
                have hrf : runFlips tool ⟨orig, some orig⟩ [.backupCreate orig]
                    = ⟨⟨out, some orig⟩, .patched,
                        [.backupCreate orig, .writeTemp out, .renameTempOverTarget]⟩ := by
                  unfold runFlips
                  dsimp only
                  rw [ht]
                  rfl
                simp only [hrf]
                have hneq : calculate_crc32 out ≠ calculate_crc32 orig :=
                  htool orig out ht
                cases hs2 : check_file_status out info.target_crc32 info.patched_crc32 with
                | already_patched =>
                    have h2 : process_single_patch info source tool ⟨out, some orig⟩
                        = ⟨⟨out, some orig⟩, .alreadyPatched, []⟩ := by
                      unfold process_single_patch
                      dsimp only
                      rw [hs2]
                    rw [h2]
                | mismatch =>
                    have h2 : process_single_patch info source tool ⟨out, some orig⟩
                        = ⟨⟨out, some orig⟩, .crcMismatch, []⟩ := by
                      unfold process_single_patch
                      dsimp only
                      rw [hs2]
                    rw [h2]
                | ready =>
                    have h2 : process_single_patch info source tool ⟨out, some orig⟩
                        = apply_patch_to_file info source tool ⟨out, some orig⟩ := by
                      unfold process_single_patch
                      dsimp only
                      rw [hs2]
                    have hap2 : apply_patch_to_file info source tool ⟨out, some orig⟩
                        = patch_file_with_backup_check info tool ⟨out, some orig⟩ := by
                      unfold apply_patch_to_file
                      rw [hm]
                    have hgate2 : patch_file_with_backup_check info tool ⟨out, some orig⟩
                        = patchBackupPhase info.patched_crc32 tool ⟨out, some orig⟩ := by
                      unfold patch_file_with_backup_check
                      cases htc : info.target_crc32 with
                      | some tc =>
                          dsimp only
                          rw [if_neg (not_not_intro (check_file_status_ready_tc hs2 htc))]
                      | none => rfl
                    rw [h2, hap2, hgate2]
                    unfold patchBackupPhase
                    dsimp only
                    rw [if_pos hneq]
                    cases hpc : info.patched_crc32 with
                    | some pc =>
                        dsimp only
                        rw [if_neg (check_file_status_ready_pc hs2 hpc)]
                    | none => rfl

/-- Witness for C1 (amended): a Replace instruction declaring the source's
fingerprint as `patchedCrc32` is a pure AlreadyApplied no-op on the second
run. -/
theorem C1_idempotence_witness :
    process_single_patch ⟨.replace, none, some (calculate_crc32 [1])⟩ [1]
        (fun _ => none)
        ((process_single_patch ⟨.replace, none, some (calculate_crc32 [1])⟩ [1]
            (fun _ => none) ⟨[0], none⟩).state)
      = ⟨(process_single_patch ⟨.replace, none, some (calculate_crc32 [1])⟩ [1]
            (fun _ => none) ⟨[0], none⟩).state, .alreadyPatched, []⟩ :=
  (C1_idempotence ⟨.replace, none, some (calculate_crc32 [1])⟩ [1]
      (fun _ => none) [0]).1 (by decide)

/-- Witness for C9 (amended) on a one-instruction Replace catalog: the skipped
entry keeps its state and carries the phase-skipped classification. -/
theorem C9_phase_skip_witness :
    (main_phases none [(⟨.replace, none, none⟩, [1], ⟨[0], none⟩)] [5] []).1
        = [(⟨[0], none⟩, .phaseSkipped)] ∧
    ((⟨[0], none⟩ : FsState), Outcome.phaseSkipped).2 = Outcome.phaseSkipped := by
  have h := C9_phase_skip [(⟨.replace, none, none⟩, [1], ⟨[0], none⟩)] [5] []
    (fun _ => none)
  exact ⟨h.1, h.2.1 ((⟨[0], none⟩ : FsState), Outcome.phaseSkipped) (by decide)⟩
